import Mathlib

/-!
Verification of the keypoint-to-decision pipeline of the PoseNet API
(`src/index.js`).  JavaScript numbers are modelled as extended reals
(`EReal`): the code uses `Infinity` as the distance of an absent wrist, and
all arithmetic it performs (squares, square roots, min, max, subtraction,
division by the constant 550) is modelled exactly over the reals.
Rounding for display (`parseFloat(minDist.toFixed(2))`) is modelled as
rounding to the nearest multiple of 1/100, ties away from zero for
non-negative inputs, which is what `toFixed` does on the values at hand;
`Infinity.toFixed` round-trips to `Infinity`.
-/

namespace Posenet

open Classical

/-- A 2-D position in image pixel coordinates (`point.position` in
`src/index.js`). -/
structure Position where
  x : ℝ
  y : ℝ

/-- A detected keypoint as produced by the pose estimator: a part name, a
position and a detection confidence score (`pose.keypoints` entries in
`src/index.js`). -/
structure Keypoint where
  part : String
  position : Position
  score : ℝ

/-- The filtered keypoint mapping `kp` built in `src/index.js` lines 51-56:
only the parts `nose`, `leftWrist`, `rightWrist` are retained, and only
their positions are stored. -/
structure KeypointSet where
  nose : Option Position
  leftWrist : Option Position
  rightWrist : Option Position

/-- One step of the filtering loop of `src/index.js` lines 52-56:
`if (["nose","leftWrist","rightWrist"].includes(point.part)) kp[point.part] = point.position`. -/
def addKeypoint (kp : KeypointSet) (p : Keypoint) : KeypointSet :=
  if p.part = "nose" then { kp with nose := some p.position }
  else if p.part = "leftWrist" then { kp with leftWrist := some p.position }
  else if p.part = "rightWrist" then { kp with rightWrist := some p.position }
  else kp

/-- The whole filtering loop of `src/index.js` lines 51-56, starting from the
empty object `kp = \x7b\x7d`. -/
def buildKeypointSet (points : List Keypoint) : KeypointSet :=
  points.foldl addKeypoint ⟨none, none, none⟩

/-- `euclideanDistance` of `src/index.js` lines 28-30:
`Math.sqrt((a.x - b.x) ** 2 + (a.y - b.y) ** 2)`. -/
noncomputable def euclideanDistance (a b : Position) : ℝ :=
  Real.sqrt ((a.x - b.x) ^ 2 + (a.y - b.y) ^ 2)

/-- The wrist selected by the decision (`closestHand` in `src/index.js`). -/
inductive Hand where
  | leftWrist
  | rightWrist
deriving DecidableEq, Repr

/-- The `result` object of `src/index.js` lines 75-79. -/
structure Judgment where
  closestHand : Hand
  distance : EReal
  accepted : Prop

/-- The single error of the decision engine: nose keypoint absent
(`if (!kp.nose)` in `src/index.js` line 58; `MissingAnchorError` in the
design spec). -/
inductive DecideError where
  | missingAnchor
deriving DecidableEq, Repr

/-- `distLeft` of `src/index.js` lines 62-64: the Euclidean distance from the
left wrist to the nose, or `Infinity` when the left wrist is absent. -/
noncomputable def distLeft (kp : KeypointSet) (nose : Position) : EReal :=
  match kp.leftWrist with
  | some w => (euclideanDistance w nose : EReal)
  | none => ⊤

/-- `distRight` of `src/index.js` lines 65-67. -/
noncomputable def distRight (kp : KeypointSet) (nose : Position) : EReal :=
  match kp.rightWrist with
  | some w => (euclideanDistance w nose : EReal)
  | none => ⊤

/-- `minDist` of `src/index.js` line 68: `Math.min(distLeft, distRight)`. -/
noncomputable def minDist (kp : KeypointSet) (nose : Position) : EReal :=
  min (distLeft kp nose) (distRight kp nose)

/-- `closestHand` of `src/index.js` line 69:
`minDist === distLeft ? "leftWrist" : "rightWrist"`. -/
noncomputable def closestHand (kp : KeypointSet) (nose : Position) : Hand :=
  if minDist kp nose = distLeft kp nose then Hand.leftWrist else Hand.rightWrist

/-- `THRESHOLD_DISTANCE` of `src/index.js` line 71. -/
def THRESHOLD_DISTANCE : ℝ := 550

/-- `ACCEPTANCE_THRESHOLD` of `src/index.js` line 73. -/
def ACCEPTANCE_THRESHOLD : ℝ := 0.1

/-- The confidence formula of `src/index.js` line 72 as a function of the
minimum distance: `Math.max(0, 1 - minDist / THRESHOLD_DISTANCE)`. -/
noncomputable def confidenceOf (d : EReal) : EReal :=
  max 0 (1 - d / (THRESHOLD_DISTANCE : ℝ))

/-- `confidenceDecimal` of `src/index.js` line 72. -/
noncomputable def confidenceDecimal (kp : KeypointSet) (nose : Position) : EReal :=
  confidenceOf (minDist kp nose)

/-- `parseFloat(x.toFixed(2))` of `src/index.js` line 77: round to the
nearest multiple of 1/100 (`Mathlib`'s `round` resolves ties upward, as
`toFixed` does on non-negative values); an infinite value round-trips
unchanged. -/
noncomputable def round2 (x : EReal) : EReal :=
  if x = ⊤ then ⊤
  else if x = ⊥ then ⊥
  else (((round ((100 : ℝ) * x.toReal) : ℤ) : ℝ) / 100 : ℝ)

/-- The judgment built for a keypoint set whose nose is present
(`src/index.js` lines 62-79). -/
noncomputable def judgmentOf (kp : KeypointSet) (nose : Position) : Judgment :=
  { closestHand := closestHand kp nose
    distance := round2 (minDist kp nose)
    accepted := confidenceDecimal kp nose ≥ (ACCEPTANCE_THRESHOLD : ℝ) }

/-- The decision engine `decide` (spec §4.1): `src/index.js` lines 58-79.
It fails with `DecideError.missingAnchor` exactly when the nose is absent
(line 58), and otherwise produces the `result` object. -/
noncomputable def decide (kp : KeypointSet) : Except DecideError Judgment :=
  match kp.nose with
  | none => .error DecideError.missingAnchor
  | some nose => .ok (judgmentOf kp nose)

/-- A serialized HTTP response body: either an error object
`\x7b"error": msg\x7d` or a judgment object. -/
inductive ResponseBody where
  | errorMessage (msg : String)
  | judgment (j : Judgment)

/-- An HTTP response: status code and JSON body. -/
structure HttpResponse where
  status : Nat
  body : ResponseBody

/-- Failure of the image-decoding / pose-estimation collaborators
(anything caught by the `try/catch` of `src/index.js` lines 34, 82-85). -/
inductive PoseError where
  | estimationFailed
deriving DecidableEq, Repr

/-- The handler tail after pose estimation (`src/index.js` lines 51-81):
filter the keypoints, run the decision engine, translate
`DecideError.missingAnchor` to a 400 response and a judgment to a 200
response. -/
noncomputable def poseResponse (points : List Keypoint) : HttpResponse :=
  match decide (buildKeypointSet points) with
  | .error DecideError.missingAnchor =>
      ⟨400, ResponseBody.errorMessage "Nose not detected"⟩
  | .ok j => ⟨200, ResponseBody.judgment j⟩

/-- The `POST /pose` handler (`src/index.js` lines 33-86), with image
decoding and pose estimation abstracted as the collaborator `estimate`
(spec §6): a missing file is rejected first with status 400, a collaborator
failure yields status 500, and otherwise the keypoints flow into
`poseResponse`. -/
noncomputable def postPose {Image : Type} (file : Option Image)
    (estimate : Image → Except PoseError (List Keypoint)) : HttpResponse :=
  match file with
  | none => ⟨400, ResponseBody.errorMessage "No image uploaded"⟩
  | some f =>
      match estimate f with
      | .error _ => ⟨500, ResponseBody.errorMessage "Pose estimation failed"⟩
      | .ok points => poseResponse points

/-- Round a rational to the nearest integer, ties to even: the tie rule of
IEEE 754 round-to-nearest at integer granularity. -/
def roundTiesEven (q : ℚ) : ℤ :=
  if q - ⌊q⌋ < 1 / 2 then ⌊q⌋
  else if 1 / 2 < q - ⌊q⌋ then ⌊q⌋ + 1
  else if ⌊q⌋ % 2 = 0 then ⌊q⌋ else ⌊q⌋ + 1

/-- Binary64 (IEEE 754 double-precision) rounding of a rational in the
normal range: round to 53 significant bits, nearest, ties to even.  This is
the precision at which every JavaScript number operation of `src/index.js`
is actually performed. -/
def roundDouble (q : ℚ) : ℚ :=
  if q = 0 then 0
  else (roundTiesEven (q / 2 ^ (Int.log 2 |q| - 52)) : ℚ) *
    2 ^ (Int.log 2 |q| - 52)

/-- The confidence computation of `src/index.js` line 72 carried out in the
program's binary64 arithmetic on a double minimum distance `d`:
`Math.max(0, 1 - d / 550)`, with the division and subtraction each correctly
rounded (`Math.max` and the comparison with 0 are exact; the literals 0, 1
and 550 are exactly representable). -/
def confidenceDoubleAt (d : ℚ) : ℚ :=
  max 0 (roundDouble (1 - roundDouble (d / 550)))

/-- The acceptance test of `src/index.js` line 78 in binary64 arithmetic:
the source literal `0.1` denotes the double nearest 1/10, and the comparison
itself is exact. -/
def acceptedDoubleAt (d : ℚ) : Prop :=
  confidenceDoubleAt d ≥ roundDouble (1 / 10)

/-! ### Helper lemmas -/

lemma coe_min_eq (a b : ℝ) : ((min a b : ℝ) : EReal) = min (a : EReal) (b : EReal) :=
  EReal.coe_strictMono.monotone.map_min

lemma coe_max_eq (a b : ℝ) : ((max a b : ℝ) : EReal) = max (a : EReal) (b : EReal) :=
  EReal.coe_strictMono.monotone.map_max

lemma decide_ok (kp : KeypointSet) (n : Position) (hn : kp.nose = some n) :
    Posenet.decide kp = .ok (judgmentOf kp n) := by
  simp [Posenet.decide, hn]

lemma judgmentOf_distance (kp : KeypointSet) (n : Position) :
    (judgmentOf kp n).distance = round2 (minDist kp n) := rfl

lemma judgmentOf_closestHand (kp : KeypointSet) (n : Position) :
    (judgmentOf kp n).closestHand = closestHand kp n := rfl

lemma judgmentOf_accepted (kp : KeypointSet) (n : Position) :
    (judgmentOf kp n).accepted ↔
      confidenceDecimal kp n ≥ (ACCEPTANCE_THRESHOLD : ℝ) := Iff.rfl

lemma confidenceOf_top : confidenceOf ⊤ = 0 := by
  rw [confidenceOf, EReal.top_div_of_pos_ne_top, EReal.sub_top]
  · exact max_eq_left bot_le
  · exact EReal.coe_pos.mpr (by norm_num [THRESHOLD_DISTANCE])
  · exact EReal.coe_ne_top _

lemma confidenceOf_coe (x : ℝ) :
    confidenceOf (x : EReal) =
      ((max 0 (1 - x / THRESHOLD_DISTANCE) : ℝ) : EReal) := by
  rw [confidenceOf, coe_max_eq, EReal.coe_sub, EReal.coe_div]
  norm_num

/-! ### Claims -/

/-- A concrete keypoint set: nose at the origin, left wrist at `(3, 4)`
(distance 5), right wrist absent. -/
def kpLeftOnly : KeypointSet := ⟨some ⟨0, 0⟩, some ⟨3, 4⟩, none⟩

/-- C1: For every `KeypointSet` containing a nose and at least one wrist,
`decide` returns a `Judgment` whose `distance` field equals the minimum over
the present wrists of the Euclidean distance to the nose, rounded to two
decimal places, with an absent wrist treated as distance positive
infinity. -/
theorem decide_distance_is_min_wrist_distance (kp : KeypointSet) (n : Position)
    (hn : kp.nose = some n) (_hw : kp.leftWrist.isSome ∨ kp.rightWrist.isSome) :
    ∃ j : Judgment, Posenet.decide kp = .ok j ∧
      j.distance = round2 (match kp.leftWrist, kp.rightWrist with
        | some l, some r =>
            ((min (euclideanDistance l n) (euclideanDistance r n) : ℝ) : EReal)
        | some l, none => (euclideanDistance l n : EReal)
        | none, some r => (euclideanDistance r n : EReal)
        | none, none => (⊤ : EReal)) := by
  refine ⟨judgmentOf kp n, decide_ok kp n hn, ?_⟩
  rw [judgmentOf_distance]
  congr 1
  rcases hl : kp.leftWrist with _ | l <;> rcases hr : kp.rightWrist with _ | r <;>
    simp [minDist, distLeft, distRight, hl, hr, coe_min_eq, le_top, min_eq_left,
      min_eq_right]

/-- Witness for C1 at the concrete keypoint set `kpLeftOnly`. -/
theorem decide_distance_is_min_wrist_distance_witness :
    ∃ j : Judgment, Posenet.decide kpLeftOnly = .ok j ∧
      j.distance =
        round2 ((euclideanDistance ⟨3, 4⟩ ⟨0, 0⟩ : ℝ) : EReal) :=
  decide_distance_is_min_wrist_distance kpLeftOnly ⟨0, 0⟩ rfl (Or.inl rfl)

/-- C2: For every `KeypointSet` containing a nose, the `accepted` field of
the judgment holds exactly when `max(0, 1 - minDist / 550) ≥ 0.1` computed
from the unrounded minimum wrist distance; the rounded display value plays no
role in the acceptance test. -/
theorem decide_accepted_iff_unrounded_confidence (kp : KeypointSet)
    (n : Position) (hn : kp.nose = some n) (j : Judgment)
    (hj : Posenet.decide kp = .ok j) :
    j.accepted ↔
      max 0 (1 - minDist kp n / ((550 : ℝ) : EReal)) ≥ ((0.1 : ℝ) : EReal) := by
  rw [decide_ok kp n hn] at hj
  injection hj with hj
  subst hj
  exact judgmentOf_accepted kp n

/-- Witness for C2 at the concrete keypoint set `kpLeftOnly`. -/
theorem decide_accepted_iff_unrounded_confidence_witness :
    (judgmentOf kpLeftOnly ⟨0, 0⟩).accepted ↔
      max 0 (1 - minDist kpLeftOnly ⟨0, 0⟩ / ((550 : ℝ) : EReal)) ≥
        ((0.1 : ℝ) : EReal) :=
  decide_accepted_iff_unrounded_confidence kpLeftOnly ⟨0, 0⟩ rfl
    (judgmentOf kpLeftOnly ⟨0, 0⟩) (decide_ok kpLeftOnly ⟨0, 0⟩ rfl)

lemma closestHand_right_iff (kp : KeypointSet) (n : Position) :
    closestHand kp n = Hand.rightWrist ↔ distRight kp n < distLeft kp n := by
  rw [closestHand, minDist]
  split_ifs with h
  · simp only [reduceCtorEq, false_iff, not_lt]
    exact min_eq_left_iff.mp h
  · simp only [true_iff]
    exact not_le.mp (fun hle => h (min_eq_left hle))

lemma closestHand_left_of_le (kp : KeypointSet) (n : Position)
    (h : distLeft kp n ≤ distRight kp n) : closestHand kp n = Hand.leftWrist := by
  rw [closestHand, minDist, if_pos (min_eq_left h)]

/-- A concrete keypoint set for the tie-break: nose at the origin, left wrist
at `(10, 0)` and right wrist at `(0, 10)`, both at distance 10. -/
def kpTie : KeypointSet := ⟨some ⟨0, 0⟩, some ⟨10, 0⟩, some ⟨0, 10⟩⟩

/-- C3: With both wrists present, equal distances resolve the judgment's
`closestHand` to `leftWrist`, and `closestHand` is `rightWrist` exactly when
the right wrist is strictly closer than the left one. -/
theorem closestHand_tie_prefers_left (kp : KeypointSet) (n : Position)
    (hn : kp.nose = some n) (l r : Position)
    (hl : kp.leftWrist = some l) (hr : kp.rightWrist = some r)
    (j : Judgment) (hj : Posenet.decide kp = .ok j) :
    (euclideanDistance l n = euclideanDistance r n →
        j.closestHand = Hand.leftWrist) ∧
    (j.closestHand = Hand.rightWrist ↔
        euclideanDistance r n < euclideanDistance l n) := by
  rw [decide_ok kp n hn] at hj
  injection hj with hj
  subst hj
  have hL : distLeft kp n = (euclideanDistance l n : EReal) := by
    simp [distLeft, hl]
  have hR : distRight kp n = (euclideanDistance r n : EReal) := by
    simp [distRight, hr]
  rw [judgmentOf_closestHand]
  constructor
  · intro heq
    exact closestHand_left_of_le kp n (by rw [hL, hR, heq])
  · rw [closestHand_right_iff, hL, hR, EReal.coe_lt_coe_iff]

/-- Witness for C3 at the concrete keypoint set `kpTie`. -/
theorem closestHand_tie_prefers_left_witness :
    (euclideanDistance ⟨10, 0⟩ ⟨0, 0⟩ = euclideanDistance ⟨0, 10⟩ ⟨0, 0⟩ →
        (judgmentOf kpTie ⟨0, 0⟩).closestHand = Hand.leftWrist) ∧
    ((judgmentOf kpTie ⟨0, 0⟩).closestHand = Hand.rightWrist ↔
        euclideanDistance ⟨0, 10⟩ ⟨0, 0⟩ < euclideanDistance ⟨10, 0⟩ ⟨0, 0⟩) :=
  closestHand_tie_prefers_left kpTie ⟨0, 0⟩ rfl ⟨10, 0⟩ ⟨0, 10⟩ rfl rfl
    (judgmentOf kpTie ⟨0, 0⟩) (decide_ok kpTie ⟨0, 0⟩ rfl)

/-- C4: A `KeypointSet` without a nose makes `decide` fail with the
missing-anchor error, surfaced by the handler as status 400 with body
`\x7b"error": "Nose not detected"\x7d`; every `KeypointSet` with a nose
yields a judgment, so this is the decision engine's only error path. -/
theorem decide_missing_nose_error (kp : KeypointSet) (points : List Keypoint) :
    (kp.nose = none → Posenet.decide kp = .error DecideError.missingAnchor) ∧
    ((buildKeypointSet points).nose = none →
        poseResponse points =
          ⟨400, ResponseBody.errorMessage "Nose not detected"⟩) ∧
    (∀ n : Position, kp.nose = some n →
        ∃ j : Judgment, Posenet.decide kp = .ok j) := by
  refine ⟨fun h => by simp [Posenet.decide, h], fun h => ?_,
    fun n hn => ⟨judgmentOf kp n, decide_ok kp n hn⟩⟩
  rw [poseResponse]
  simp [Posenet.decide, h]

/-- Witness for C4: a noseless set errors out, a keypoint list whose filter
has no nose maps to the 400 response, and a nose-only set succeeds. -/
theorem decide_missing_nose_error_witness :
    (Posenet.decide ⟨none, some ⟨1, 2⟩, none⟩ =
        .error DecideError.missingAnchor) ∧
    (poseResponse [⟨"leftWrist", ⟨1, 2⟩, 0.9⟩] =
        ⟨400, ResponseBody.errorMessage "Nose not detected"⟩) ∧
    (∃ j : Judgment, Posenet.decide ⟨some ⟨0, 0⟩, none, none⟩ = .ok j) :=
  ⟨(decide_missing_nose_error ⟨none, some ⟨1, 2⟩, none⟩ []).1 rfl,
   (decide_missing_nose_error ⟨none, none, none⟩
      [⟨"leftWrist", ⟨1, 2⟩, 0.9⟩]).2.1 rfl,
   (decide_missing_nose_error ⟨some ⟨0, 0⟩, none, none⟩ []).2.2 ⟨0, 0⟩ rfl⟩

/-- C5: A `KeypointSet` with only a nose is not an error: the judgment
reports distance `Infinity`, the confidence decimal collapses to 0, the
request is not accepted, and `closestHand` defaults to `leftWrist` because
the min of two infinities resolves to the left branch. -/
theorem decide_no_wrists_defined_default (kp : KeypointSet) (n : Position)
    (hn : kp.nose = some n) (hl : kp.leftWrist = none)
    (hr : kp.rightWrist = none) :
    ∃ j : Judgment, Posenet.decide kp = .ok j ∧
      j.distance = ⊤ ∧
      confidenceDecimal kp n = 0 ∧
      ¬ j.accepted ∧
      j.closestHand = Hand.leftWrist := by
  have hmin : minDist kp n = ⊤ := by
    simp [minDist, distLeft, distRight, hl, hr]
  have hconf : confidenceDecimal kp n = 0 := by
    rw [confidenceDecimal, hmin, confidenceOf_top]
  refine ⟨judgmentOf kp n, decide_ok kp n hn, ?_, hconf, ?_, ?_⟩
  · rw [judgmentOf_distance, hmin, round2, if_pos rfl]
  · intro hacc
    have := (judgmentOf_accepted kp n).mp hacc
    rw [hconf] at this
    have h01 : ((ACCEPTANCE_THRESHOLD : ℝ) : EReal) ≤ ((0 : ℝ) : EReal) := this
    have := EReal.coe_le_coe_iff.mp h01
    norm_num [ACCEPTANCE_THRESHOLD] at this
  · rw [judgmentOf_closestHand]
    exact closestHand_left_of_le kp n
      (by simp [distLeft, distRight, hl, hr])

/-- A concrete keypoint set with only a nose. -/
def kpNoseOnly : KeypointSet := ⟨some ⟨0, 0⟩, none, none⟩

/-- Witness for C5 at the concrete keypoint set `kpNoseOnly`. -/
theorem decide_no_wrists_defined_default_witness :
    ∃ j : Judgment, Posenet.decide kpNoseOnly = .ok j ∧
      j.distance = ⊤ ∧
      confidenceDecimal kpNoseOnly ⟨0, 0⟩ = 0 ∧
      ¬ j.accepted ∧
      j.closestHand = Hand.leftWrist :=
  decide_no_wrists_defined_default kpNoseOnly ⟨0, 0⟩ rfl rfl rfl

lemma log2_eq (r : ℚ) (e : ℤ) (hr : 0 < r)
    (h1 : (2 : ℚ) ^ e ≤ r) (h2 : r < (2 : ℚ) ^ (e + 1)) : Int.log 2 r = e :=
  le_antisymm
    (Int.lt_add_one_iff.mp ((Int.lt_zpow_iff_log_lt (by norm_num) hr).mp h2))
    ((Int.zpow_le_iff_le_log (by norm_num) hr).mp h1)

lemma roundTiesEven_eq_down (q : ℚ) (f : ℤ) (hf : ⌊q⌋ = f)
    (h : q - f < 1 / 2) : roundTiesEven q = f := by
  rw [roundTiesEven, hf, if_pos h]

lemma roundTiesEven_eq_up (q : ℚ) (f : ℤ) (hf : ⌊q⌋ = f)
    (h : 1 / 2 < q - f) : roundTiesEven q = f + 1 := by
  rw [roundTiesEven, hf, if_neg (by linarith), if_pos h]

lemma roundDouble_eq (q : ℚ) (e m : ℤ) (hq : 0 < q)
    (h1 : (2 : ℚ) ^ e ≤ q) (h2 : q < (2 : ℚ) ^ (e + 1))
    (hm : roundTiesEven (q / 2 ^ (e - 52)) = m) :
    roundDouble q = m * 2 ^ (e - 52) := by
  rw [roundDouble, if_neg (ne_of_gt hq), abs_of_pos hq,
    log2_eq q e hq h1 h2, hm]

lemma roundDouble_495_div_550 :
    roundDouble ((495 : ℚ) / 550) = 8106479329266893 / 2 ^ 53 := by
  have hm : roundTiesEven ((495 : ℚ) / 550 / 2 ^ ((-1 : ℤ) - 52)) =
      8106479329266893 := by
    rw [show ((-1 : ℤ) - 52) = -53 by norm_num]
    rw [roundTiesEven_eq_up ((495 : ℚ) / 550 / 2 ^ (-53 : ℤ))
      8106479329266892 (by norm_num) (by norm_num)]
    norm_num
  rw [roundDouble_eq ((495 : ℚ) / 550) (-1) 8106479329266893
    (by norm_num) (by norm_num) (by norm_num) hm]
  norm_num

lemma roundDouble_one_sub :
    roundDouble (1 - (8106479329266893 / 2 ^ 53 : ℚ)) =
      900719925474099 / 2 ^ 53 := by
  have hm : roundTiesEven ((1 - (8106479329266893 / 2 ^ 53 : ℚ)) /
      2 ^ ((-4 : ℤ) - 52)) = 7205759403792792 := by
    rw [show ((-4 : ℤ) - 52) = -56 by norm_num]
    rw [roundTiesEven_eq_down ((1 - (8106479329266893 / 2 ^ 53 : ℚ)) /
      2 ^ (-56 : ℤ)) 7205759403792792 (by norm_num) (by norm_num)]
  rw [roundDouble_eq (1 - (8106479329266893 / 2 ^ 53 : ℚ)) (-4)
    7205759403792792 (by norm_num) (by norm_num) (by norm_num) hm]
  norm_num

lemma roundDouble_tenth :
    roundDouble ((1 : ℚ) / 10) = 7205759403792794 / 2 ^ 56 := by
  have hm : roundTiesEven ((1 : ℚ) / 10 / 2 ^ ((-4 : ℤ) - 52)) =
      7205759403792794 := by
    rw [show ((-4 : ℤ) - 52) = -56 by norm_num]
    rw [roundTiesEven_eq_up ((1 : ℚ) / 10 / 2 ^ (-56 : ℤ))
      7205759403792793 (by norm_num) (by norm_num)]
    norm_num
  rw [roundDouble_eq ((1 : ℚ) / 10) (-4) 7205759403792794
    (by norm_num) (by norm_num) (by norm_num) hm]
  norm_num

lemma confidenceDoubleAt_495 :
    confidenceDoubleAt 495 = 900719925474099 / 2 ^ 53 := by
  rw [confidenceDoubleAt, roundDouble_495_div_550, roundDouble_one_sub]
  exact max_eq_right (by norm_num)

/-- C6 fails on the program: a minimum wrist distance of exactly 495 is an
exact double (as is `Math.sqrt(495 ** 2)`, a correctly rounded square root
of an exact square), but in binary64 arithmetic `1 - 495/550` evaluates
strictly below the double denoted by the literal `0.1`, so the computed
confidence is not exactly 0.1 and the request is not accepted. -/
theorem decide_boundary_495_accepted_counterexample :
    confidenceDoubleAt 495 ≠ roundDouble (1 / 10) ∧
    ¬ acceptedDoubleAt 495 := by
  rw [confidenceDoubleAt_495, roundDouble_tenth]
  constructor
  · norm_num
  · show ¬ confidenceDoubleAt 495 ≥ roundDouble (1 / 10)
    rw [confidenceDoubleAt_495, roundDouble_tenth]
    norm_num

/-- C6 (amended): at minimum wrist distance exactly 495 the program's
double arithmetic yields the confidence `900719925474099 / 2 ^ 53`
(≈ 0.09999999999999998), strictly below the double denoted by the source
literal `0.1`, so `decide` returns `accepted = false` at this boundary; the
comparison is still the inclusive `>=`, but the computed confidence falls
just short of the threshold. -/
theorem decide_boundary_495_rejected_in_doubles :
    confidenceDoubleAt 495 = 900719925474099 / 2 ^ 53 ∧
    confidenceDoubleAt 495 < roundDouble (1 / 10) ∧
    ¬ acceptedDoubleAt 495 := by
  refine ⟨confidenceDoubleAt_495, ?_, ?_⟩
  · rw [confidenceDoubleAt_495, roundDouble_tenth]
    norm_num
  · show ¬ confidenceDoubleAt 495 ≥ roundDouble (1 / 10)
    rw [confidenceDoubleAt_495, roundDouble_tenth]
    norm_num

/-- A concrete keypoint set whose single wrist is exactly 495 pixels from
the nose. -/
def kpBoundary : KeypointSet := ⟨some ⟨0, 0⟩, some ⟨495, 0⟩, none⟩

/-- C7: A `POST /pose` request with no uploaded file is answered with
status 400 and body `\x7b"error": "No image uploaded"\x7d`, whatever the
pose-estimation collaborator would do: the estimator (and hence the decision
engine) is never consulted. -/
theorem postPose_no_file_rejected {Image : Type}
    (estimate : Image → Except PoseError (List Keypoint)) :
    postPose (none : Option Image) estimate =
      ⟨400, ResponseBody.errorMessage "No image uploaded"⟩ := rfl

/-- Witness for C7 with a unit image type and a trivial estimator. -/
theorem postPose_no_file_rejected_witness :
    postPose (none : Option Unit) (fun _ => .ok []) =
      ⟨400, ResponseBody.errorMessage "No image uploaded"⟩ :=
  postPose_no_file_rejected (fun _ => .ok [])

/-- C8: The decision engine is deterministic: equal keypoint sets produce
equal results.  (As a function of its argument in this embedding, `decide`
reads and writes no state outside the returned value by construction.) -/
theorem decide_deterministic (kp1 kp2 : KeypointSet) (h : kp1 = kp2) :
    Posenet.decide kp1 = Posenet.decide kp2 := by rw [h]

/-- Witness for C8 at the concrete keypoint set `kpNoseOnly`. -/
theorem decide_deterministic_witness :
    Posenet.decide kpNoseOnly = Posenet.decide kpNoseOnly :=
  decide_deterministic kpNoseOnly kpNoseOnly rfl

lemma addKeypoint_congr (kp : KeypointSet) (p q : Keypoint)
    (hpart : p.part = q.part) (hpos : p.position = q.position) :
    addKeypoint kp p = addKeypoint kp q := by
  rw [addKeypoint, addKeypoint, hpart, hpos]

lemma foldl_addKeypoint_congr :
    ∀ (l1 l2 : List Keypoint) (acc : KeypointSet),
      l1.map (fun p => (p.part, p.position)) =
        l2.map (fun p => (p.part, p.position)) →
      l1.foldl addKeypoint acc = l2.foldl addKeypoint acc
  | [], [], _, _ => rfl
  | [], _ :: _, _, h => by simp at h
  | _ :: _, [], _, h => by simp at h
  | p :: l1, q :: l2, acc, h => by
    simp only [List.map_cons, List.cons.injEq, Prod.mk.injEq] at h
    obtain ⟨⟨hpart, hpos⟩, htail⟩ := h
    simp only [List.foldl_cons]
    rw [addKeypoint_congr acc p q hpart hpos]
    exact foldl_addKeypoint_congr l1 l2 _ htail

/-- C9: The judgment does not depend on detection-confidence scores:
keypoint lists that agree on parts and positions, whatever their scores,
produce the same decision. -/
theorem decide_score_noninterference (pts1 pts2 : List Keypoint)
    (h : pts1.map (fun p => (p.part, p.position)) =
         pts2.map (fun p => (p.part, p.position))) :
    Posenet.decide (buildKeypointSet pts1) =
      Posenet.decide (buildKeypointSet pts2) := by
  rw [buildKeypointSet, buildKeypointSet, foldl_addKeypoint_congr pts1 pts2 _ h]

/-- Witness for C9: the same nose position with scores 0.9 and 0.1. -/
theorem decide_score_noninterference_witness :
    Posenet.decide (buildKeypointSet [⟨"nose", ⟨1, 2⟩, 0.9⟩]) =
      Posenet.decide (buildKeypointSet [⟨"nose", ⟨1, 2⟩, 0.1⟩]) :=
  decide_score_noninterference [⟨"nose", ⟨1, 2⟩, 0.9⟩]
    [⟨"nose", ⟨1, 2⟩, 0.1⟩] rfl

lemma confidenceOf_nonneg (d : EReal) : 0 ≤ confidenceOf d :=
  le_max_left 0 _

lemma confidenceOf_bot : confidenceOf ⊥ = ⊤ := by
  rw [confidenceOf, EReal.bot_div_of_pos_ne_top
    (EReal.coe_pos.mpr (by norm_num [THRESHOLD_DISTANCE])) (EReal.coe_ne_top _)]
  rw [show (1 : EReal) = ((1 : ℝ) : EReal) from rfl, EReal.coe_sub_bot]
  exact max_eq_right le_top

lemma confidenceOf_antitone {d1 d2 : EReal} (h : d1 ≤ d2) :
    confidenceOf d2 ≤ confidenceOf d1 := by
  induction d2 using EReal.rec with
  | h_bot =>
      rw [le_bot_iff.mp h]
  | h_top =>
      rw [confidenceOf_top]
      exact confidenceOf_nonneg d1
  | h_real y =>
      induction d1 using EReal.rec with
      | h_bot =>
          rw [confidenceOf_bot]
          exact le_top
      | h_top =>
          exact absurd (top_le_iff.mp h) (EReal.coe_ne_top y)
      | h_real x =>
          rw [confidenceOf_coe, confidenceOf_coe]
          refine EReal.coe_le_coe_iff.mpr (max_le_max le_rfl ?_)
          refine sub_le_sub_left ?_ 1
          exact (div_le_div_iff_of_pos_right (by norm_num [THRESHOLD_DISTANCE])).mpr
            (EReal.coe_le_coe_iff.mp h)

lemma confidenceOf_le_one {d : EReal} (hd : 0 ≤ d) : confidenceOf d ≤ 1 := by
  induction d using EReal.rec with
  | h_bot =>
      exact absurd (le_bot_iff.mp hd) (by simp)
  | h_top =>
      rw [confidenceOf_top]
      exact zero_le_one
  | h_real x =>
      rw [confidenceOf_coe, show (1 : EReal) = ((1 : ℝ) : EReal) from rfl]
      refine EReal.coe_le_coe_iff.mpr (max_le (by norm_num) ?_)
      exact sub_le_self 1
        (div_nonneg (EReal.coe_nonneg.mp hd) (by norm_num [THRESHOLD_DISTANCE]))

/-- C10: The confidence decimal is non-increasing in the distance and
stays in `[0, 1]` for non-negative distances; acceptance is therefore
downward-closed: a judgment at a smaller or equal minimum wrist distance is
accepted whenever one at a larger distance is. -/
theorem confidence_antitone_acceptance_downward
    (d d1 d2 : EReal) (kp1 kp2 : KeypointSet) (n1 n2 : Position)
    (hn1 : kp1.nose = some n1) (hn2 : kp2.nose = some n2)
    (j1 j2 : Judgment)
    (hj1 : Posenet.decide kp1 = .ok j1) (hj2 : Posenet.decide kp2 = .ok j2)
    (hd : minDist kp1 n1 ≤ minDist kp2 n2) :
    (0 ≤ d → 0 ≤ confidenceOf d ∧ confidenceOf d ≤ 1) ∧
    (d1 ≤ d2 → confidenceOf d2 ≤ confidenceOf d1) ∧
    (j2.accepted → j1.accepted) := by
  rw [decide_ok kp1 n1 hn1] at hj1
  rw [decide_ok kp2 n2 hn2] at hj2
  injection hj1 with hj1
  injection hj2 with hj2
  subst hj1
  subst hj2
  refine ⟨fun h0 => ⟨confidenceOf_nonneg d, confidenceOf_le_one h0⟩,
    fun h12 => confidenceOf_antitone h12, fun hacc => ?_⟩
  have h2 := (judgmentOf_accepted kp2 n2).mp hacc
  refine (judgmentOf_accepted kp1 n1).mpr (le_trans h2 ?_)
  exact confidenceOf_antitone hd

/-- Witness for C10 at concrete distances 0 and 1 and the keypoint sets
`kpLeftOnly` (distance 5) and `kpBoundary` (distance 495). -/
theorem confidence_antitone_acceptance_downward_witness :
    ((0 : EReal) ≤ 0 → 0 ≤ confidenceOf 0 ∧ confidenceOf 0 ≤ 1) ∧
    ((0 : EReal) ≤ 1 → confidenceOf 1 ≤ confidenceOf 0) ∧
    ((judgmentOf kpBoundary ⟨0, 0⟩).accepted →
      (judgmentOf kpLeftOnly ⟨0, 0⟩).accepted) :=
  confidence_antitone_acceptance_downward 0 0 1 kpLeftOnly kpBoundary
    ⟨0, 0⟩ ⟨0, 0⟩ rfl rfl
    (judgmentOf kpLeftOnly ⟨0, 0⟩) (judgmentOf kpBoundary ⟨0, 0⟩)
    (decide_ok kpLeftOnly ⟨0, 0⟩ rfl) (decide_ok kpBoundary ⟨0, 0⟩ rfl)
    (by
      have h5 : minDist kpLeftOnly ⟨0, 0⟩ =
          ((euclideanDistance ⟨3, 4⟩ ⟨0, 0⟩ : ℝ) : EReal) := by
        simp [minDist, distLeft, distRight, kpLeftOnly]
      have h495 : minDist kpBoundary ⟨0, 0⟩ =
          ((euclideanDistance ⟨495, 0⟩ ⟨0, 0⟩ : ℝ) : EReal) := by
        simp [minDist, distLeft, distRight, kpBoundary]
      rw [h5, h495]
      refine EReal.coe_le_coe_iff.mpr ?_
      have e5 : euclideanDistance ⟨3, 4⟩ ⟨0, 0⟩ = 5 := by
        rw [euclideanDistance]
        rw [show ((3 : ℝ) - 0) ^ 2 + ((4 : ℝ) - 0) ^ 2 = 5 ^ 2 by norm_num]
        exact Real.sqrt_sq (by norm_num)
      have e495 : euclideanDistance ⟨495, 0⟩ ⟨0, 0⟩ = 495 := by
        rw [euclideanDistance]
        rw [show ((495 : ℝ) - 0) ^ 2 + ((0 : ℝ) - 0) ^ 2 = 495 ^ 2 by norm_num]
        exact Real.sqrt_sq (by norm_num)
      rw [e5, e495]
      norm_num)

end Posenet
